import Mathlib

/-!
Verification of the task-orchestration / multi-agent dispatch engine of the
Spilot repository (package `internal/agent`), via a shallow embedding of the
Go source into Lean 4.

Modelling conventions:
* Go `map[string]T` becomes an association list `List (String × T)`;
  map-literal insertion order is kept as list order.
* Go `(value, error)` returns become explicit sums / option pairs.
* Wall-clock timestamps (`CreatedAt`, `UpdatedAt`) carry no behavioural
  content for the properties below; the command timestamp (used as an id
  seed) is threaded through the process oracle as a natural number.
* External effects (the LLM client, the shell, `encoding/json`) are
  modelled as oracle functions supplied as parameters; the repository code
  that consumes them is translated literally.
* Each executor is instrumented with an observation log (`calls`: which
  agents were actually invoked, status `trace`: which statuses were
  assigned, in order); the log records events exactly where the source
  performs them and does not alter control flow.
-/

namespace Spilot

/-- `AgentType` from `internal/agent/types.go`. -/
inductive AgentType
  | planning
  | file
  | terminal
  | debug
deriving DecidableEq, Repr

/-- The string value of each `AgentType` constant (`"planning"`, ...). -/
def AgentType.toStr : AgentType → String
  | .planning => "planning"
  | .file => "file"
  | .terminal => "terminal"
  | .debug => "debug"

/-- `TaskStatus` from `internal/agent/types.go`. -/
inductive TaskStatus
  | pending
  | running
  | completed
  | failed
deriving DecidableEq, Repr

/-- `ProjectStructure` from `internal/agent/types.go`. -/
structure ProjectStructure where
  folders : List String
  files : List String
deriving DecidableEq, Repr

/-- `ProjectFile` from `internal/agent/types.go`. -/
structure ProjectFile where
  path : String
  content : String
deriving DecidableEq, Repr

/-- `ProjectPlan` from `internal/agent/types.go` (maps as assoc lists). -/
structure ProjectPlan where
  name : String
  description : String
  structure' : ProjectStructure
  techStack : List (String × String)
  setup : List String
  dependencies : List (String × List String)
  files : List ProjectFile
deriving DecidableEq, Repr

/-- A value stored in a `TaskResult.Data` map (`map[string]interface{}`):
the agents of this repository store strings, booleans and project plans. -/
inductive GoVal
  | str (s : String)
  | boolVal (b : Bool)
  | plan (p : ProjectPlan)
deriving DecidableEq, Repr

/-- `TaskResult` from `internal/agent/types.go`; a `nil` data map is `[]`
and an omitted error is `""`. -/
structure TaskResult where
  success : Bool
  data : List (String × GoVal)
  error : String
deriving DecidableEq, Repr

/-- `Task` from `internal/agent/types.go`.  Payload values built by this
repository are all strings, so `Data` is `List (String × String)`.
Timestamps are omitted (no property refers to them). -/
structure Task where
  id : String
  type : AgentType
  description : String
  data : List (String × String)
  status : TaskStatus
  result : Option TaskResult
deriving DecidableEq, Repr

/-- Association-list lookup, modelling Go map indexing `m[k]` combined with
the `, ok` form (`none` = absent). -/
def lookupAL {α : Type} (l : List (String × α)) (k : String) : Option α :=
  match l with
  | [] => none
  | (k', v) :: rest => if k' = k then some v else lookupAL rest k

/-- Association-list store, modelling Go map assignment `m[k] = v`. -/
def insertAL {α : Type} (l : List (String × α)) (k : String) (v : α) :
    List (String × α) :=
  match l with
  | [] => [(k, v)]
  | (k', v') :: rest =>
    if k' = k then (k, v) :: rest else (k', v') :: insertAL rest k v

/-! ## Command Executor (`internal/agent/commandexecutor.go`) -/

/-- The error returned by `exec.Cmd.Run`: either the command started and
exited unsuccessfully, or the shell process could not be spawned at all.
The Go code only ever reads the message (`err.Error()`). -/
inductive RunErr
  | exitErr (msg : String)
  | spawnErr (msg : String)
deriving DecidableEq, Repr

/-- The message of a `RunErr` (Go `err.Error()`). -/
def RunErr.msg : RunErr → String
  | .exitErr m => m
  | .spawnErr m => m

/-- Outcome of one `exec.Cmd.Run` call with captured output buffers, plus
the `time.Now().UnixNano()` start-time used as the id seed. -/
structure CmdRun where
  err : Option RunErr
  stdout : String
  stderr : String
  startNanos : Nat
deriving DecidableEq, Repr

/-- An oracle giving, for each (command, workingDir) pair, the outcome of
running `sh -c command` there.  Stands in for the operating system. -/
def ShellOracle : Type := String → String → CmdRun

/-- `Command` from `internal/agent/types.go` (`CreatedAt` is carried by the
id, which embeds the start time). -/
structure Command where
  id : String
  command : String
  workingDir : String
  status : String
  output : String
  error : String
deriving DecidableEq, Repr

/-- `CommandExecutorImpl.ExecuteCommand` from
`internal/agent/commandexecutor.go`: runs `sh -c command`, captures both
streams, builds a `completed` record, and on a process error rewrites the
status to `failed` and folds the process error with the captured stderr.
The Go function's single return statement is `return result, nil`, so the
error component of the pair is `none` on every path. -/
def ExecuteCommand (sh : ShellOracle) (command workingDir : String) :
    Command × Option String :=
  let run := sh command workingDir
  let result : Command :=
    { id := "cmd_" ++ toString run.startNanos
      command := command
      workingDir := workingDir
      status := "completed"
      output := run.stdout
      error := run.stderr }
  let result :=
    match run.err with
    | none => result
    | some e => { result with status := "failed", error := e.msg ++ ": " ++ run.stderr }
  (result, none)

/-- `CommandExecutorImpl.ExecuteCommands` from
`internal/agent/commandexecutor.go`: runs the commands in order, stops on a
hard error (returning the results so far with the error) and after the
first `failed` result (returning the results so far including it). -/
def ExecuteCommands (sh : ShellOracle) (commands : List String)
    (workingDir : String) : List Command × Option String :=
  match commands with
  | [] => ([], none)
  | c :: rest =>
    match ExecuteCommand sh c workingDir with
    | (_, some e) => ([], some e)
    | (r, none) =>
      if r.status == "failed" then ([r], none)
      else
        let out := ExecuteCommands sh rest workingDir
        (r :: out.1, out.2)

/-- Elements of a list up to and including the first one satisfying `p`. -/
def takeThrough {α : Type} (p : α → Bool) : List α → List α
  | [] => []
  | a :: as => if p a then [a] else a :: takeThrough p as

/-- Whether running `c` in `dir` under oracle `sh` yields a `failed` record. -/
def cmdFails (sh : ShellOracle) (dir c : String) : Bool :=
  (ExecuteCommand sh c dir).1.status == "failed"

/-! ## Language-model client (external collaborator, `internal/agent/types.go`
interface `LLMClient`): modelled as an oracle record.  Only the operations
the agents consume are needed. -/

/-- A chat message: (role, content). -/
def Msg : Type := String × String

/-- Oracle for the `LLMClient` interface: each operation may fail with a
message (Go `(string, error)`). -/
structure LLMClient where
  chat : List Msg → Except String String
  analyzeError : String → String → Except String String
  generateCommand : String → Except String String
  planProject : String → Except String String

/-- `SystemPrompt` from `internal/agent/system.go`. -/
def SystemPrompt : String :=
  "You are an assistant that helps with code and terminal automation. Only suggest or execute terminal commands if the user explicitly asks for it (e.g., \"run this in terminal\", \"execute\", \"open terminal and...\"). For all other requests, provide code, explanations, or other help as appropriate. Never assume a command should be run unless the user is clear."

/-! ## Planning Agent (`planning.go`, given as `src/unnamed/part_002`) -/

/-- Go `strings.TrimPrefix`. -/
def trimPrefixStr (s p : String) : String :=
  if s.startsWith p then s.drop p.length else s

/-- The prompt built by `createGenericPlan` (braces of the embedded JSON
example written as \x7b/\x7d escapes). -/
def genericPlanPrompt (request : String) : String :=
  SystemPrompt ++ "\nUser request: \"" ++ request ++ "\"\n" ++
  "Generate a JSON array of tasks. Each task must have a \"type\" (e.g., \"file\", \"terminal\"), a \"description\", and a \"data\" object with necessary parameters.\n" ++
  "For file tasks, data should include \"operation\", \"path\", and \"content\".\n" ++
  "For terminal tasks, data should include \"instruction\".\n\n" ++
  "Example Request: \"create a new directory called \x27server\x27 and inside it, create a file named \x27main.go\x27 with a basic hello world program\"\n" ++
  "Example Response:\n[\n  \x7b\n    \"type\": \"file\",\n    \"description\": \"Create main.go\",\n    \"data\": \x7b\n      \"operation\": \"create\",\n      \"path\": \"server/main.go\",\n      \"content\": \"package main\\n\\nimport \\\"fmt\\\"\\n\\nfunc main() \x7b\\n\\tfmt.Println(\\\"hello world\\\")\\n\x7d\"\n    \x7d\n  \x7d\n]"

/-- `PlanningAgentImpl.createGenericPlan`. -/
def createGenericPlan (llm : LLMClient) (request : String) :
    Except String String :=
  match llm.chat [("system", SystemPrompt), ("user", genericPlanPrompt request)] with
  | .error e => .error ("LLM failed to generate a plan: " ++ e)
  | .ok planJSON => .ok planJSON

/-- `PlanningAgentImpl.handleExplainRequest`. -/
def handleExplainRequest (llm : LLMClient) (target : String) :
    Except String String :=
  llm.chat
    [("system", "You are an expert programming instructor."),
     ("user", "Explain the following code or concept in a clear, concise way for a developer: \"" ++ target ++ "\"")]

/-- `PlanningAgentImpl.handleProjectCreation`.  `parsePlan` is the oracle
for `encoding/json`'s `Unmarshal` into a `ProjectPlan` (standard library,
not repository code). -/
def handleProjectCreation (llm : LLMClient)
    (parsePlan : String → Except String ProjectPlan) (description : String) :
    Except String ProjectPlan :=
  match llm.planProject description with
  | .error e => .error ("LLM failed to generate project plan: " ++ e)
  | .ok planJSON =>
    match parsePlan planJSON with
    | .error e =>
      .error ("failed to parse project plan JSON from LLM: " ++ e ++
        ". Raw response: " ++ planJSON)
    | .ok plan => .ok plan

/-- `PlanningAgentImpl.Execute`: requires the `request` payload key (hard
failure if absent), then routes on the request's leading command verb, else
falls back to generic planning. -/
def PlanningAgentExecute (llm : LLMClient)
    (parsePlan : String → Except String ProjectPlan) (task : Task) :
    Except String TaskResult :=
  match lookupAL task.data "request" with
  | none => .error "request data not found in task"
  | some request =>
    if request.startsWith "/create-project" then
      match handleProjectCreation llm parsePlan
          ((trimPrefixStr request "/create-project").trim) with
      | .error e => .error e
      | .ok plan =>
        .ok { success := true, data := [("plan", .plan plan)], error := "" }
    else if request.startsWith "/explain" then
      match handleExplainRequest llm ((trimPrefixStr request "/explain").trim) with
      | .error e => .error e
      | .ok explanation =>
        .ok { success := true, data := [("explanation", .str explanation)], error := "" }
    else
      match createGenericPlan llm request with
      | .error e => .error ("failed to create plan: " ++ e)
      | .ok plan =>
        .ok { success := true, data := [("plan", .str plan)], error := "" }

/-! ## Terminal Agent (`internal/agent/terminal.go`) -/

/-- `TerminalAgentImpl.Execute`: requires `instruction` (hard failure if
absent), defaults `workspace_dir` to `"."`, asks the LLM for a command, runs
it, and reports success iff the record's error field is empty. -/
def TerminalAgentExecute (llm : LLMClient) (sh : ShellOracle) (task : Task) :
    Except String TaskResult :=
  match lookupAL task.data "instruction" with
  | none => .error "instruction not found in task data"
  | some instruction =>
    let workingDir := (lookupAL task.data "workspace_dir").getD "."
    match llm.generateCommand instruction with
    | .error e => .error ("failed to generate command: " ++ e)
    | .ok command =>
      match ExecuteCommand sh command workingDir with
      | (_, some e) => .ok { success := false, data := [], error := e }
      | (result, none) =>
        .ok { success := result.error == ""
              data := [("command", .str command), ("output", .str result.output),
                       ("error", .str result.error)]
              error := "" }

/-! ## Debug Agent (`debug.go`, given alongside `filemanager.go`) -/

/-- `DebugAgentImpl.identifyErrorFile`: the source stub returns empty
strings unconditionally. -/
def identifyErrorFile (_errorOutput _workspaceDir : String) : String × String :=
  ("", "")

/-- `DebugAgentImpl.generateFix`. -/
def generateFix (llm : LLMClient) (errorOutput _fileContent analysis : String) :
    Except String String :=
  llm.chat
    [("system", "You are an expert debugger. Generate corrected code based on error analysis."),
     ("user", "Based on this error analysis:\n\n" ++ analysis ++
       "\n\nAnd the original error:\n" ++ errorOutput ++
       "\n\nGenerate the corrected code. Provide only the fixed code, no explanations.")]

/-- `DebugAgentImpl.Execute`. -/
def DebugAgentExecute (llm : LLMClient) (task : Task) :
    Except String TaskResult :=
  match lookupAL task.data "error_output" with
  | none => .error "error_output not found in task data"
  | some errorOutput =>
    let workspaceDir := (lookupAL task.data "workspace_dir").getD "."
    let fileInfo := identifyErrorFile errorOutput workspaceDir
    match llm.analyzeError errorOutput fileInfo.2 with
    | .error e => .error ("failed to analyze error: " ++ e)
    | .ok analysis =>
      match generateFix llm errorOutput fileInfo.2 analysis with
      | .error e => .error ("failed to generate fix: " ++ e)
      | .ok fix =>
        .ok { success := true
              data := [("analysis", .str analysis), ("fix", .str fix),
                       ("file", .str fileInfo.1)]
              error := "" }

/-! ## File Manager (`internal/agent/filemanager.go`)

The file tree is modelled as an association list path → content; OS-level
I/O faults other than "no such file" are not modelled (directory creation
in `CreateFile` always succeeds, matching the ideal filesystem). -/

/-- Modelled filesystem state. -/
def FS : Type := List (String × String)

/-- `FileManagerImpl.FileExists` (`os.Stat` + `os.IsNotExist`). -/
def FileExists (fs : FS) (path : String) : Bool :=
  (lookupAL fs path).isSome

/-- `FileManagerImpl.CreateFile`: creates parent directories then creates
or truncates the file and writes the content. -/
def CreateFile (fs : FS) (path content : String) : FS × Option String :=
  (insertAL fs path content, none)

/-- `FileManagerImpl.UpdateFile`: refuses with "file does not exist" when
the target is absent, otherwise overwrites it. -/
def UpdateFile (fs : FS) (path content : String) : FS × Option String :=
  if FileExists fs path then (insertAL fs path content, none)
  else (fs, some ("file does not exist: " ++ path))

/-- Association-list removal (used by `DeleteFile`). -/
def removeAL {α : Type} (l : List (String × α)) (k : String) :
    List (String × α) :=
  match l with
  | [] => []
  | (k', v) :: rest => if k' = k then rest else (k', v) :: removeAL rest k

/-- `FileManagerImpl.DeleteFile` (`os.Remove`). -/
def DeleteFile (fs : FS) (path : String) : FS × Option String :=
  if FileExists fs path then (removeAL fs path, none)
  else (fs, some ("remove " ++ path ++ ": no such file or directory"))

/-- `FileManagerImpl.ReadFile` (`os.ReadFile`). -/
def ReadFile (fs : FS) (path : String) : Except String String :=
  match lookupAL fs path with
  | some content => .ok content
  | none => .error ("open " ++ path ++ ": no such file or directory")

/-- Go `filepath.Join(workspaceDir, path)` (path cleaning not modelled). -/
def joinPath (a b : String) : String :=
  if a = "" then b else if b = "" then a else a ++ "/" ++ b

/-! ## File Agent (`internal/agent/file.go`).  Each handler returns the Go
`(*TaskResult, error)` outcome together with the filesystem after the
operation. -/

/-- `FileAgentImpl.handleCreateFile`. -/
def handleCreateFile (fs : FS) (task : Task) :
    Except String TaskResult × FS :=
  match lookupAL task.data "path" with
  | none => (.error "path not found in task data", fs)
  | some path =>
    let content := (lookupAL task.data "content").getD ""
    match lookupAL task.data "workspace_dir" with
    | none => (.error "workspace_dir not found in task data", fs)
    | some workspaceDir =>
      let fullPath := joinPath workspaceDir path
      match CreateFile fs fullPath content with
      | (fs', some e) => (.ok { success := false, data := [], error := e }, fs')
      | (fs', none) =>
        (.ok { success := true
               data := [("path", .str fullPath), ("created", .boolVal true)]
               error := "" }, fs')

/-- `FileAgentImpl.handleUpdateFile`. -/
def handleUpdateFile (fs : FS) (task : Task) :
    Except String TaskResult × FS :=
  match lookupAL task.data "path" with
  | none => (.error "path not found in task data", fs)
  | some path =>
    match lookupAL task.data "content" with
    | none => (.error "content not found for update operation", fs)
    | some content =>
      match lookupAL task.data "workspace_dir" with
      | none => (.error "workspace_dir not found in task data", fs)
      | some workspaceDir =>
        let fullPath := joinPath workspaceDir path
        match UpdateFile fs fullPath content with
        | (fs', some e) => (.ok { success := false, data := [], error := e }, fs')
        | (fs', none) =>
          (.ok { success := true
                 data := [("path", .str fullPath), ("updated", .boolVal true)]
                 error := "" }, fs')

/-- `FileAgentImpl.handleDeleteFile`. -/
def handleDeleteFile (fs : FS) (task : Task) :
    Except String TaskResult × FS :=
  match lookupAL task.data "path" with
  | none => (.error "path not found in task data", fs)
  | some path =>
    match lookupAL task.data "workspace_dir" with
    | none => (.error "workspace_dir not found in task data", fs)
    | some workspaceDir =>
      let fullPath := joinPath workspaceDir path
      match DeleteFile fs fullPath with
      | (fs', some e) => (.ok { success := false, data := [], error := e }, fs')
      | (fs', none) =>
        (.ok { success := true
               data := [("path", .str fullPath), ("deleted", .boolVal true)]
               error := "" }, fs')

/-- `FileAgentImpl.handleReadFile`. -/
def handleReadFile (fs : FS) (task : Task) :
    Except String TaskResult × FS :=
  match lookupAL task.data "path" with
  | none => (.error "path not found in task data", fs)
  | some path =>
    match lookupAL task.data "workspace_dir" with
    | none => (.error "workspace_dir not found in task data", fs)
    | some workspaceDir =>
      let fullPath := joinPath workspaceDir path
      match ReadFile fs fullPath with
      | .error e => (.ok { success := false, data := [], error := e }, fs)
      | .ok content =>
        (.ok { success := true
               data := [("path", .str fullPath), ("content", .str content)]
               error := "" }, fs)

/-- `FileAgentImpl.Execute`: dispatches on the `operation` payload key;
missing or unknown operations are hard failures. -/
def FileAgentExecute (fs : FS) (task : Task) :
    Except String TaskResult × FS :=
  match lookupAL task.data "operation" with
  | none => (.error "operation data not found in task", fs)
  | some operation =>
    if operation = "create" then handleCreateFile fs task
    else if operation = "update" then handleUpdateFile fs task
    else if operation = "delete" then handleDeleteFile fs task
    else if operation = "read" then handleReadFile fs task
    else (.error ("unknown file operation: " ++ operation), fs)

/-! ## Orchestrator (`internal/agent/system.go`) -/

/-- `isTerminalIntent`'s keyword list. -/
def terminalKeywords : List String :=
  ["run in terminal", "execute", "open terminal", "run command", "shell",
   "bash", "powershell", "/run"]

/-- Whether `pat` is a leading segment of the character list. -/
def isPrefixCL : List Char → List Char → Bool
  | [], _ => true
  | _ :: _, [] => false
  | a :: as, b :: bs => a == b && isPrefixCL as bs

/-- Whether `pat` occurs contiguously in the character list. -/
def containsCL : List Char → List Char → Bool
  | [], pat => pat.isEmpty
  | c :: rest, pat => isPrefixCL pat (c :: rest) || containsCL rest pat

/-- Go `strings.Contains`. -/
def strContains (s pat : String) : Bool :=
  containsCL s.data pat.data

/-- Go `strings.ToLower`, modelled as per-character lowering (the fixed
keyword vocabulary is ASCII). -/
def toLowerStr (s : String) : String :=
  String.mk (s.data.map Char.toLower)

/-- `isTerminalIntent` from `internal/agent/system.go`: case-insensitive
containment test of the fixed keyword list against the input. -/
def isTerminalIntent (input : String) : Bool :=
  terminalKeywords.any (fun k => strContains (toLowerStr input) k)

/-- The `System` of `internal/agent/system.go`, restricted to the state the
dispatch logic reads and writes: the agent registry and the result store.
An agent is its `Execute` method, a function from the task to the Go
`(*TaskResult, error)` outcome (`Except`: `.error` = hard failure). -/
structure System where
  agents : AgentType → Option (Task → Except String TaskResult)
  results : List (String × TaskResult)

/-- The `(*TaskResult, error)` pair returned by `System.ExecuteTask`. -/
inductive ExecRes
  | noAgent (e : String)
  | hardFail (r : TaskResult) (e : String)
  | ok (r : TaskResult)
deriving DecidableEq, Repr

/-- The Go return pair of an `ExecRes` (result pointer, error). -/
def ExecRes.toPair : ExecRes → Option TaskResult × Option String
  | .noAgent e => (none, some e)
  | .hardFail r e => (some r, some e)
  | .ok r => (some r, none)

/-- Observable outcome of `ExecuteTask`: the updated system, the mutated
task, the returned pair, the statuses assigned in order, and the agent
invocations performed. -/
structure ExecOut where
  sys : System
  task : Task
  res : ExecRes
  trace : List TaskStatus
  calls : List (String × AgentType)

/-- `System.ExecuteTask` from `internal/agent/system.go`: unknown kind is
a hard failure with the task untouched; otherwise the task is set Running,
the agent invoked, and on a hard failure the task is set Failed with a
synthesized failure result (which is NOT stored), while otherwise the task
is set Completed (whatever the result's success flag) and the result is
stored under the task id. -/
def ExecuteTask (s : System) (task : Task) : ExecOut :=
  match s.agents task.type with
  | none =>
    { sys := s, task := task
      res := .noAgent ("agent type " ++ task.type.toStr ++ " not found")
      trace := [], calls := [] }
  | some agent =>
    let t1 := { task with status := TaskStatus.running }
    match agent t1 with
    | .error e =>
      let r : TaskResult := { success := false, data := [], error := e }
      { sys := s
        task := { t1 with status := TaskStatus.failed, result := some r }
        res := .hardFail r e
        trace := [TaskStatus.running, TaskStatus.failed]
        calls := [(task.id, task.type)] }
    | .ok r =>
      { sys := { s with results := insertAL s.results task.id r }
        task := { t1 with status := TaskStatus.completed, result := some r }
        res := .ok r
        trace := [TaskStatus.running, TaskStatus.completed]
        calls := [(task.id, task.type)] }

/-- `System.GetTaskResult`. -/
def GetTaskResult (s : System) (taskID : String) : Option TaskResult :=
  lookupAL s.results taskID

/-- Observable outcome of `ExecuteTaskChain`. -/
structure ChainOut where
  sys : System
  results : List TaskResult
  err : Option String
  calls : List (String × AgentType)

/-- `System.ExecuteTaskChain` from `internal/agent/system.go`: runs the
tasks in order; on a hard failure returns the results accumulated so far
(the failing task's result is not appended) with the error; appends each
soft result and stops after the first with `Success = false`. -/
def ExecuteTaskChain (s : System) (tasks : List Task) : ChainOut :=
  match tasks with
  | [] => { sys := s, results := [], err := none, calls := [] }
  | t :: rest =>
    let o := ExecuteTask s t
    match o.res with
    | .noAgent e => { sys := o.sys, results := [], err := some e, calls := o.calls }
    | .hardFail _ e => { sys := o.sys, results := [], err := some e, calls := o.calls }
    | .ok r =>
      if r.success then
        let c := ExecuteTaskChain o.sys rest
        { sys := c.sys, results := r :: c.results, err := c.err
          calls := o.calls ++ c.calls }
      else
        { sys := o.sys, results := [r], err := none, calls := o.calls }

/-- Observable outcome of `ProcessUserRequest`: includes the task that the
entry point built. -/
structure ProcOut where
  sys : System
  built : Task
  res : Option TaskResult × Option String
  calls : List (String × AgentType)

/-- The Terminal task built by `ProcessUserRequest` for a terminal-intent
request (`nid` is the id produced by `generateTaskID`). -/
def terminalIntentTask (nid request workspaceDir : String) : Task :=
  { id := nid, type := AgentType.terminal
    description := "Execute terminal command (intent classified)"
    data := [("instruction", request), ("workspace_dir", workspaceDir)]
    status := TaskStatus.pending, result := none }

/-- The Planning task built by `ProcessUserRequest` for every other
request. -/
def planningRequestTask (nid request workspaceDir : String) : Task :=
  { id := nid, type := AgentType.planning
    description := "Plan and execute user request"
    data := [("request", request), ("workspace_dir", workspaceDir)]
    status := TaskStatus.pending, result := none }

/-- `System.ProcessUserRequest` from `internal/agent/system.go` (the spec's
`route`): terminal-intent requests build and execute a Terminal task
directly; all others build and execute a Planning task carrying the raw
request, wrapping a hard failure as "failed to process request".  `nid` is
the id produced by `generateTaskID` for the one task this call builds. -/
def ProcessUserRequest (s : System) (nid request workspaceDir : String) :
    ProcOut :=
  if isTerminalIntent request then
    let task := terminalIntentTask nid request workspaceDir
    let o := ExecuteTask s task
    { sys := o.sys, built := task, res := o.res.toPair, calls := o.calls }
  else
    let planningTask := planningRequestTask nid request workspaceDir
    let o := ExecuteTask s planningTask
    match o.res with
    | .ok r =>
      { sys := o.sys, built := planningTask, res := (some r, none), calls := o.calls }
    | .noAgent e =>
      { sys := o.sys, built := planningTask
        res := (none, some ("failed to process request: " ++ e)), calls := o.calls }
    | .hardFail _ e =>
      { sys := o.sys, built := planningTask
        res := (none, some ("failed to process request: " ++ e)), calls := o.calls }

/-- Observable outcome of `HandleCommand`. -/
structure HandleOut where
  sys : System
  built : Option Task
  res : Option TaskResult × Option String
  calls : List (String × AgentType)

/-- The Debug task built by `handleFixCommand`. -/
def fixTask (nid errorOutput workspaceDir : String) : Task :=
  { id := nid, type := AgentType.debug, description := "Fix error in code"
    data := [("error_output", errorOutput), ("workspace_dir", workspaceDir)]
    status := TaskStatus.pending, result := none }

/-- The Terminal task built by `handleRunCommand`. -/
def runTask (nid instruction workspaceDir : String) : Task :=
  { id := nid, type := AgentType.terminal, description := "Execute command"
    data := [("instruction", instruction), ("workspace_dir", workspaceDir)]
    status := TaskStatus.pending, result := none }

/-- The Planning task built by `handleExplainCommand`. -/
def explainTask (nid target workspaceDir : String) : Task :=
  { id := nid, type := AgentType.planning
    description := "Explain code or concept"
    data := [("target", target), ("workspace_dir", workspaceDir)]
    status := TaskStatus.pending, result := none }

/-- The Planning task built by `handleCreateProjectCommand`. -/
def createProjectTask (nid description workspaceDir : String) : Task :=
  { id := nid, type := AgentType.planning
    description := "Create project from description"
    data := [("description", description), ("workspace_dir", workspaceDir)]
    status := TaskStatus.pending, result := none }

/-- `System.handleFixCommand`. -/
def handleFixCommand (s : System) (nid errorOutput workspaceDir : String) :
    HandleOut :=
  let task := fixTask nid errorOutput workspaceDir
  let o := ExecuteTask s task
  { sys := o.sys, built := some task, res := o.res.toPair, calls := o.calls }

/-- `System.handleRunCommand`. -/
def handleRunCommand (s : System) (nid instruction workspaceDir : String) :
    HandleOut :=
  let task := runTask nid instruction workspaceDir
  let o := ExecuteTask s task
  { sys := o.sys, built := some task, res := o.res.toPair, calls := o.calls }

/-- `System.handleExplainCommand`. -/
def handleExplainCommand (s : System) (nid target workspaceDir : String) :
    HandleOut :=
  let task := explainTask nid target workspaceDir
  let o := ExecuteTask s task
  { sys := o.sys, built := some task, res := o.res.toPair, calls := o.calls }

/-- `System.handleCreateProjectCommand`. -/
def handleCreateProjectCommand (s : System)
    (nid description workspaceDir : String) : HandleOut :=
  let task := createProjectTask nid description workspaceDir
  let o := ExecuteTask s task
  { sys := o.sys, built := some task, res := o.res.toPair, calls := o.calls }

/-- `System.HandleCommand` from `internal/agent/system.go` (the spec's
`dispatchCommand`): four fixed verbs, anything else a hard failure built
without constructing or executing a task. -/
def HandleCommand (s : System) (nid command args workspaceDir : String) :
    HandleOut :=
  if command = "/fix" then handleFixCommand s nid args workspaceDir
  else if command = "/run" then handleRunCommand s nid args workspaceDir
  else if command = "/explain" then handleExplainCommand s nid args workspaceDir
  else if command = "/create-project" then
    handleCreateProjectCommand s nid args workspaceDir
  else
    { sys := s, built := none
      res := (none, some ("unknown command: " ++ command)), calls := [] }

/-! ## Concrete instances (used to evaluate the theorems on closed inputs) -/

/-- An LLM oracle whose command translation always returns `cmd`. -/
def llmConst (cmd : String) : LLMClient :=
  { chat := fun _ => .ok "chat-reply"
    analyzeError := fun _ _ => .ok "analysis"
    generateCommand := fun _ => .ok cmd
    planProject := fun _ => .ok "plan-json" }

/-- A JSON oracle that rejects every project-plan text. -/
def parsePlanFail : String → Except String ProjectPlan :=
  fun _ => .error "bad json"

/-- A shell under which every command exits 0 with empty stderr. -/
def shQuiet : ShellOracle := fun _ _ =>
  { err := none, stdout := "ok", stderr := "", startNanos := 1 }

/-- A shell behaving like `sh` on the commands `true` and `false`. -/
def shTrueFalse : ShellOracle := fun c _ =>
  if c = "true" then { err := none, stdout := "", stderr := "", startNanos := 1 }
  else if c = "false" then
    { err := some (RunErr.exitErr "exit status 1"), stdout := "", stderr := ""
      startNanos := 2 }
  else { err := none, stdout := "", stderr := "", startNanos := 3 }

/-- A shell whose spawn always fails (missing `/bin/sh`). -/
def shSpawnFail : ShellOracle := fun _ _ =>
  { err := some (RunErr.spawnErr "fork/exec /bin/sh: no such file or directory")
    stdout := "", stderr := "", startNanos := 4 }

/-- A shell under which every command exits non-zero while printing nothing
to stderr. -/
def shExitEmptyStderr : ShellOracle := fun _ _ =>
  { err := some (RunErr.exitErr "exit status 1"), stdout := "out", stderr := ""
    startNanos := 5 }

/-- A concrete Terminal task. -/
def taskTerm : Task :=
  { id := "t1", type := AgentType.terminal, description := "run"
    data := [("instruction", "run it"), ("workspace_dir", ".")]
    status := TaskStatus.pending, result := none }

/-- A concrete File task requesting an update of `ws/a.txt`. -/
def taskUpd : Task :=
  { id := "t2", type := AgentType.file, description := "upd"
    data := [("operation", "update"), ("path", "a.txt"), ("content", "new"),
             ("workspace_dir", "ws")]
    status := TaskStatus.pending, result := none }

/-- A concrete Planning task with an empty payload. -/
def taskPlain : Task :=
  { id := "t0", type := AgentType.planning, description := "demo"
    data := [], status := TaskStatus.pending, result := none }

/-- First task of the concrete chains. -/
def taskA : Task :=
  { id := "a", type := AgentType.planning, description := ""
    data := [], status := TaskStatus.pending, result := none }

/-- Second task of the concrete chains. -/
def taskB : Task :=
  { id := "b", type := AgentType.debug, description := ""
    data := [], status := TaskStatus.pending, result := none }

/-- Third task of the concrete chains. -/
def taskC : Task :=
  { id := "c", type := AgentType.terminal, description := ""
    data := [], status := TaskStatus.pending, result := none }

/-- An empty successful result. -/
def okTrueResult : TaskResult := { success := true, data := [], error := "" }

/-- An empty soft-failure result. -/
def okFalseResult : TaskResult := { success := false, data := [], error := "" }

/-- A system whose every agent returns a soft failure. -/
def sysSoftFail : System :=
  { agents := fun _ => some (fun _ => Except.ok okFalseResult), results := [] }

/-- A system whose every agent raises a hard failure. -/
def sysHardFail : System :=
  { agents := fun _ => some (fun _ => Except.error "boom"), results := [] }

/-- A system whose planning agent succeeds and whose debug agent raises a
hard failure. -/
def sysChainHard : System :=
  { agents := fun t =>
      match t with
      | AgentType.planning => some (fun _ => Except.ok okTrueResult)
      | AgentType.debug => some (fun _ => Except.error "boom")
      | _ => none
    results := [] }

/-- A system whose planning agent succeeds and whose debug agent returns a
soft failure. -/
def sysChainSoft : System :=
  { agents := fun t =>
      match t with
      | AgentType.planning => some (fun _ => Except.ok okTrueResult)
      | AgentType.debug => some (fun _ => Except.ok okFalseResult)
      | _ => none
    results := [] }

/-- A system with the repository's Terminal and Planning agents registered
over concrete oracles (the wiring of `NewSystem` restricted to the two
agents the routing claims exercise). -/
def sysBoth : System :=
  { agents := fun t =>
      match t with
      | AgentType.terminal => some (TerminalAgentExecute (llmConst "ls") shQuiet)
      | AgentType.planning => some (PlanningAgentExecute (llmConst "ls") parsePlanFail)
      | _ => none
    results := [] }

/-! ## Helper lemmas -/

/-- Looking up a freshly stored key returns the stored value. -/
theorem lookupAL_insertAL_self {α : Type} (l : List (String × α)) (k : String)
    (v : α) : lookupAL (insertAL l k v) k = some v := by
  induction l with
  | nil => simp [insertAL, lookupAL]
  | cons p rest ih =>
    obtain ⟨k', v'⟩ := p
    by_cases h : k' = k
    · simp [insertAL, lookupAL, h]
    · simp [insertAL, lookupAL, h, ih]

/-- A folded process-error message is never the empty string. -/
theorem append_colon_ne_empty (m s : String) : m ++ ": " ++ s ≠ "" := by
  intro h
  have h2 := congrArg String.length h
  simp [String.length_append] at h2
  exact absurd h2.1.2 (by decide)

/-- The executor record's error field is empty exactly when the process
reported no error and printed nothing to stderr. -/
theorem ExecuteCommand_error_empty_iff (sh : ShellOracle) (c dir : String) :
    (((ExecuteCommand sh c dir).1.error == "") = true) ↔
      ((sh c dir).err = none ∧ (sh c dir).stderr = "") := by
  cases hr : (sh c dir).err with
  | none => simp [ExecuteCommand, hr, beq_iff_eq]
  | some e => simp [ExecuteCommand, hr, beq_iff_eq, append_colon_ne_empty]

/-- `ExecuteTask` either invokes no agent (unregistered kind) or exactly the
task's own agent. -/
theorem ExecuteTask_calls_cases (s : System) (t : Task) :
    (ExecuteTask s t).calls = [] ∨ (ExecuteTask s t).calls = [(t.id, t.type)] := by
  cases hag : s.agents t.type with
  | none => left; simp [ExecuteTask, hag]
  | some a =>
    right
    cases ha : a { t with status := TaskStatus.running } with
    | error e => simp [ExecuteTask, hag, ha]
    | ok r => simp [ExecuteTask, hag, ha]

/-- On a terminal-intent request, `ProcessUserRequest` builds the Terminal
task and forwards its execution observables. -/
theorem ProcessUserRequest_terminal_case (s : System) (nid request dir : String)
    (ht : isTerminalIntent request = true) :
    (ProcessUserRequest s nid request dir).built = terminalIntentTask nid request dir ∧
    (ProcessUserRequest s nid request dir).calls =
      (ExecuteTask s (terminalIntentTask nid request dir)).calls := by
  constructor <;> simp [ProcessUserRequest, ht]

/-- On any other request, `ProcessUserRequest` builds the Planning task and
forwards its execution observables. -/
theorem ProcessUserRequest_planning_case (s : System) (nid request dir : String)
    (hf : isTerminalIntent request = false) :
    (ProcessUserRequest s nid request dir).built = planningRequestTask nid request dir ∧
    (ProcessUserRequest s nid request dir).calls =
      (ExecuteTask s (planningRequestTask nid request dir)).calls := by
  constructor <;>
    · simp only [ProcessUserRequest, hf, Bool.false_eq_true, if_false]
      cases hr : (ExecuteTask s (planningRequestTask nid request dir)).res <;> simp [hr]

/-! ## Claims -/

/-- Claim C1, amended.  For every task whose kind has a registered Agent,
`ExecuteTask` assigns exactly the statuses Running then a terminal one, so
a Pending task transitions Pending→Running→{Completed,Failed} and never
returns to Pending or Running; the final status is Completed exactly when
the Agent returned a result (with either success flag) and Failed exactly
when the Agent raised a hard failure.  (The original claim — Completed
exactly on `success:true`, Failed on `success:false` or a hard failure —
fails: see the counterexample, where the Agent returns `success:false` and
the task still ends Completed.) -/
theorem C1_status_transitions (s : System) (task : Task)
    (a : Task → Except String TaskResult)
    (hreg : s.agents task.type = some a)
    (_hpend : task.status = TaskStatus.pending) :
    (ExecuteTask s task).trace = [TaskStatus.running, (ExecuteTask s task).task.status] ∧
    ((ExecuteTask s task).task.status = TaskStatus.completed ∨
     (ExecuteTask s task).task.status = TaskStatus.failed) ∧
    ((ExecuteTask s task).task.status = TaskStatus.completed ↔
      ∃ r, a { task with status := TaskStatus.running } = Except.ok r) ∧
    ((ExecuteTask s task).task.status = TaskStatus.failed ↔
      ∃ e, a { task with status := TaskStatus.running } = Except.error e) := by
  cases ha : a { task with status := TaskStatus.running } with
  | error e => simp [ExecuteTask, hreg, ha]
  | ok r => simp [ExecuteTask, hreg, ha]

/-- Claim C1, witness: the amended theorem evaluated on a concrete system
and task. -/
theorem C1_status_transitions_witness :
    (ExecuteTask sysSoftFail taskPlain).task.status = TaskStatus.completed ∨
    (ExecuteTask sysSoftFail taskPlain).task.status = TaskStatus.failed :=
  (C1_status_transitions sysSoftFail taskPlain _ rfl rfl).2.1

/-- Claim C1, counterexample to the original statement: an Agent returning
`success:false` without raising leaves the task Completed, not Failed. -/
theorem C1_counterexample :
    (ExecuteTask sysSoftFail taskPlain).task.status = TaskStatus.completed ∧
    (ExecuteTask sysSoftFail taskPlain).res = ExecRes.ok okFalseResult ∧
    okFalseResult.success = false :=
  ⟨rfl, rfl, rfl⟩

/-- Claim C2.  `HandleCommand` with verb `/explain` (resp.
`/create-project`) builds a Planning task whose payload holds only the
keys `target` (resp. `description`) and `workspace_dir`, while the
Planning Agent's `Execute` requires the `request` key; with the
repository's Planning Agent registered, both invocations therefore return
the hard failure "request data not found in task" — for every LLM and
JSON oracle, so the `/explain` and `/create-project` handling paths of the
Planning Agent are never reached. -/
theorem C2_explain_create_hard_fail (llm : LLMClient)
    (parsePlan : String → Except String ProjectPlan) (s : System)
    (nid args dir : String)
    (hreg : s.agents AgentType.planning = some (PlanningAgentExecute llm parsePlan)) :
    (HandleCommand s nid "/explain" args dir).built = some (explainTask nid args dir) ∧
    (explainTask nid args dir).data = [("target", args), ("workspace_dir", dir)] ∧
    (HandleCommand s nid "/explain" args dir).res =
      (some { success := false, data := [], error := "request data not found in task" },
       some "request data not found in task") ∧
    (HandleCommand s nid "/create-project" args dir).built =
      some (createProjectTask nid args dir) ∧
    (createProjectTask nid args dir).data =
      [("description", args), ("workspace_dir", dir)] ∧
    (HandleCommand s nid "/create-project" args dir).res =
      (some { success := false, data := [], error := "request data not found in task" },
       some "request data not found in task") := by
  refine ⟨?_, rfl, ?_, ?_, rfl, ?_⟩ <;>
    simp [HandleCommand, handleExplainCommand, handleCreateProjectCommand,
      explainTask, createProjectTask,
      ExecuteTask, hreg, PlanningAgentExecute, lookupAL, ExecRes.toPair]

/-- Claim C2, witness: the theorem evaluated on a concrete system with the
Planning Agent registered over concrete oracles. -/
theorem C2_explain_create_hard_fail_witness :
    (HandleCommand sysBoth "n1" "/explain" "foo" "ws").res =
      (some { success := false, data := [], error := "request data not found in task" },
       some "request data not found in task") ∧
    (HandleCommand sysBoth "n1" "/create-project" "foo" "ws").res =
      (some { success := false, data := [], error := "request data not found in task" },
       some "request data not found in task") := by
  have h := C2_explain_create_hard_fail (llmConst "ls") parsePlanFail sysBoth
    "n1" "foo" "ws" rfl
  exact ⟨h.2.2.1, h.2.2.2.2.2⟩

/-- Claim C3, amended.  `ExecuteTaskChain` executes the tasks strictly in
order and stops after the first result with `success=false`: when every
returned result exists (no hard failure), every result before the last
succeeds; for `[T1,T2,T3]` with T1 succeeding, a SOFT failure of T2
returns exactly `[R1,R2]` (the failing result included) with no error and
never invokes T3's agent, while a HARD failure of T2 stops the chain and
returns only `[R1]` together with the error — the failing task's result is
NOT appended (this is where the original claim fails; see the
counterexample) — and likewise never invokes T3's agent. -/
theorem C3_chain_failfast :
    (∀ (s : System) (tasks : List Task),
      (ExecuteTaskChain s tasks).err = none →
      ∀ r ∈ (ExecuteTaskChain s tasks).results.dropLast, r.success = true) ∧
    (∀ (s : System) (t1 t2 t3 : Task) (a1 a2 : Task → Except String TaskResult)
        (r1 r2 : TaskResult),
      s.agents t1.type = some a1 →
      a1 { t1 with status := TaskStatus.running } = Except.ok r1 →
      r1.success = true →
      s.agents t2.type = some a2 →
      a2 { t2 with status := TaskStatus.running } = Except.ok r2 →
      r2.success = false →
      (ExecuteTaskChain s [t1, t2, t3]).results = [r1, r2] ∧
      (ExecuteTaskChain s [t1, t2, t3]).err = none ∧
      (ExecuteTaskChain s [t1, t2, t3]).calls = [(t1.id, t1.type), (t2.id, t2.type)]) ∧
    (∀ (s : System) (t1 t2 t3 : Task) (a1 a2 : Task → Except String TaskResult)
        (r1 : TaskResult) (e : String),
      s.agents t1.type = some a1 →
      a1 { t1 with status := TaskStatus.running } = Except.ok r1 →
      r1.success = true →
      s.agents t2.type = some a2 →
      a2 { t2 with status := TaskStatus.running } = Except.error e →
      (ExecuteTaskChain s [t1, t2, t3]).results = [r1] ∧
      (ExecuteTaskChain s [t1, t2, t3]).err = some e ∧
      (ExecuteTaskChain s [t1, t2, t3]).calls = [(t1.id, t1.type), (t2.id, t2.type)]) := by
  refine ⟨?_, ?_, ?_⟩
  · intro s tasks
    induction tasks generalizing s with
    | nil => intro _ r hr; simp [ExecuteTaskChain] at hr
    | cons t rest ih =>
      intro h r hr
      simp only [ExecuteTaskChain] at h hr
      cases hres : (ExecuteTask s t).res with
      | noAgent e => rw [hres] at h; simp at h
      | hardFail r' e => rw [hres] at h; simp at h
      | ok r' =>
        rw [hres] at h hr
        by_cases hs : r'.success
        · simp only [hs, if_true] at h hr
          cases hl : (ExecuteTaskChain (ExecuteTask s t).sys rest).results with
          | nil => rw [hl] at hr; simp at hr
          | cons x xs =>
            rw [hl] at hr
            rw [List.dropLast_cons_of_ne_nil (by simp)] at hr
            rcases List.mem_cons.mp hr with h1 | h2
            · rw [h1]; exact hs
            · have := ih (ExecuteTask s t).sys h r
              rw [hl] at this
              exact this h2
        · simp only [hs, if_false] at hr
          simp at hr
  · intro s t1 t2 t3 a1 a2 r1 r2 h1 ha1 hs1 h2 ha2 hs2
    refine ⟨?_, ?_, ?_⟩ <;>
      simp [ExecuteTaskChain, ExecuteTask, h1, ha1, hs1, h2, ha2, hs2]
  · intro s t1 t2 t3 a1 a2 r1 e h1 ha1 hs1 h2 ha2
    refine ⟨?_, ?_, ?_⟩ <;>
      simp [ExecuteTaskChain, ExecuteTask, h1, ha1, hs1, h2, ha2]

/-- Claim C3, witness: the soft-failure clause evaluated on a concrete
chain — T2 soft-fails, the chain returns `[R1,R2]` and T3's agent is never
invoked. -/
theorem C3_chain_failfast_witness :
    (ExecuteTaskChain sysChainSoft [taskA, taskB, taskC]).results =
      [okTrueResult, okFalseResult] ∧
    (ExecuteTaskChain sysChainSoft [taskA, taskB, taskC]).calls =
      [("a", AgentType.planning), ("b", AgentType.debug)] := by
  have h := C3_chain_failfast.2.1 sysChainSoft taskA taskB taskC
    (fun _ => Except.ok okTrueResult) (fun _ => Except.ok okFalseResult)
    okTrueResult okFalseResult rfl rfl rfl rfl rfl rfl
  exact ⟨h.1, h.2.2⟩

/-- Claim C3, counterexample to the original statement: when T2 raises a
hard failure, both tasks' agents ran (two calls) but the returned list is
`[R1]` only — the failing result is not included. -/
theorem C3_counterexample :
    (ExecuteTaskChain sysChainHard [taskA, taskB]).calls.length = 2 ∧
    (ExecuteTaskChain sysChainHard [taskA, taskB]).err = some "boom" ∧
    (ExecuteTaskChain sysChainHard [taskA, taskB]).results = [okTrueResult] :=
  ⟨rfl, rfl, rfl⟩

/-- Claim C4, amended.  For every task whose kind has a registered Agent:
when the Agent returns a result (success or soft failure), `ExecuteTask`
stores it under `task.id` so `GetTaskResult task.id` returns it; but when
the Agent raises a hard failure, the result store is left unchanged — the
synthesized failure result is NOT stored (this is where the original
claim fails; see the counterexample). -/
theorem C4_result_store (s : System) (task : Task)
    (a : Task → Except String TaskResult)
    (hreg : s.agents task.type = some a) :
    (∀ r, a { task with status := TaskStatus.running } = Except.ok r →
      GetTaskResult (ExecuteTask s task).sys task.id = some r) ∧
    (∀ e, a { task with status := TaskStatus.running } = Except.error e →
      (ExecuteTask s task).sys.results = s.results) := by
  constructor
  · intro r hr
    simp [ExecuteTask, hreg, hr, GetTaskResult, lookupAL_insertAL_self]
  · intro e he
    simp [ExecuteTask, hreg, he]

/-- Claim C4, witness: a stored soft-failure result is retrievable by id. -/
theorem C4_result_store_witness :
    GetTaskResult (ExecuteTask sysSoftFail taskPlain).sys "t0" = some okFalseResult :=
  (C4_result_store sysSoftFail taskPlain _ rfl).1 _ rfl

/-- Claim C4, counterexample to the original statement: after a hard
failure the produced TaskResult exists on the task but `GetTaskResult`
does not find it in the store. -/
theorem C4_counterexample :
    (ExecuteTask sysHardFail taskPlain).task.result =
      some { success := false, data := [], error := "boom" } ∧
    GetTaskResult (ExecuteTask sysHardFail taskPlain).sys "t0" = none :=
  ⟨rfl, rfl⟩

/-- Claim C5, amended.  For every Terminal task where command generation
succeeds, the Agent returns a TaskResult whose `success` is true iff the
process reported NO error AND the captured stderr is empty — not "iff the
captured stderr is empty, regardless of exit status": a non-zero exit with
empty stderr still yields `success:false`, because the executor folds the
process error into the record's error field (see the counterexample). -/
theorem C5_terminal_success_iff (llm : LLMClient) (sh : ShellOracle) (task : Task)
    (instruction command : String)
    (hi : lookupAL task.data "instruction" = some instruction)
    (hc : llm.generateCommand instruction = Except.ok command) :
    ∃ r, TerminalAgentExecute llm sh task = Except.ok r ∧
      (r.success = true ↔
        ((sh command ((lookupAL task.data "workspace_dir").getD ".")).err = none ∧
         (sh command ((lookupAL task.data "workspace_dir").getD ".")).stderr = "")) := by
  refine ⟨⟨(ExecuteCommand sh command ((lookupAL task.data "workspace_dir").getD ".")).1.error == "",
    [("command", GoVal.str command),
     ("output", GoVal.str (ExecuteCommand sh command ((lookupAL task.data "workspace_dir").getD ".")).1.output),
     ("error", GoVal.str (ExecuteCommand sh command ((lookupAL task.data "workspace_dir").getD ".")).1.error)],
    ""⟩, ?_, ?_⟩
  · simp only [TerminalAgentExecute, hi, hc]
    rfl
  · exact ExecuteCommand_error_empty_iff sh command
      ((lookupAL task.data "workspace_dir").getD ".")

/-- Claim C5, witness: the amended theorem evaluated on concrete oracles. -/
theorem C5_terminal_success_iff_witness : ∃ r,
    TerminalAgentExecute (llmConst "ls") shExitEmptyStderr taskTerm = Except.ok r ∧
      (r.success = true ↔
        ((shExitEmptyStderr "ls" ((lookupAL taskTerm.data "workspace_dir").getD ".")).err = none ∧
         (shExitEmptyStderr "ls" ((lookupAL taskTerm.data "workspace_dir").getD ".")).stderr = "")) :=
  C5_terminal_success_iff (llmConst "ls") shExitEmptyStderr taskTerm "run it" "ls" rfl rfl

/-- Claim C5, counterexample to the original statement: a command exiting
non-zero with EMPTY captured stderr still yields `success:false`. -/
theorem C5_counterexample :
    TerminalAgentExecute (llmConst "boom-cmd") shExitEmptyStderr taskTerm =
      Except.ok { success := false
                  data := [("command", GoVal.str "boom-cmd"), ("output", GoVal.str "out"),
                           ("error", GoVal.str "exit status 1: ")]
                  error := "" } ∧
    (shExitEmptyStderr "boom-cmd" ".").stderr = "" :=
  ⟨rfl, rfl⟩

/-- Claim C6, amended.  `ExecuteCommand` never returns a hard error for ANY
outcome of the process — non-zero exit AND failure to spawn the shell are
both folded into a `failed` record whose error field is the process error
joined with the captured stderr; a successful run keeps status `completed`
with the stderr as the error field.  (The original claim's exception —
that a spawn failure propagates as a hard error — fails: see the
counterexample, where a spawn failure is also returned softly.) -/
theorem C6_run_never_raises (sh : ShellOracle) (c dir : String) :
    (ExecuteCommand sh c dir).2 = none ∧
    ((sh c dir).err = none →
      (ExecuteCommand sh c dir).1.status = "completed" ∧
      (ExecuteCommand sh c dir).1.error = (sh c dir).stderr) ∧
    (∀ e, (sh c dir).err = some e →
      (ExecuteCommand sh c dir).1.status = "failed" ∧
      (ExecuteCommand sh c dir).1.error = RunErr.msg e ++ ": " ++ (sh c dir).stderr) := by
  refine ⟨rfl, ?_, ?_⟩
  · intro h
    simp [ExecuteCommand, h]
  · intro e h
    simp [ExecuteCommand, h]

/-- Claim C6, witness: the amended theorem evaluated on a quiet shell. -/
theorem C6_run_never_raises_witness :
    (shQuiet "echo hi" ".").err = none ∧
    (ExecuteCommand shQuiet "echo hi" ".").1.status = "completed" :=
  ⟨rfl, ((C6_run_never_raises shQuiet "echo hi" ".").2.1 rfl).1⟩

/-- Claim C6, counterexample to the original statement: a failure to spawn
the shell does NOT propagate as a hard error — it is folded into a
`failed` record and the error component stays `none`. -/
theorem C6_counterexample :
    (ExecuteCommand shSpawnFail "echo hi" ".").2 = none ∧
    (ExecuteCommand shSpawnFail "echo hi" ".").1.status = "failed" ∧
    (shSpawnFail "echo hi" ".").err =
      some (RunErr.spawnErr "fork/exec /bin/sh: no such file or directory") :=
  ⟨rfl, rfl, rfl⟩

/-- Claim C7.  `ExecuteCommands` executes the commands strictly in order,
stops immediately after the first `failed` record, and returns exactly the
records of the commands up to and including the failing one (commands
after it are never executed); in particular on `["true","false","true"]`
under a shell behaving like `sh` it returns two records — `true` completed
and `false` failed — and never runs the third command. -/
theorem C7_runSequence_failfast :
    (∀ (sh : ShellOracle) (cmds : List String) (dir : String),
      ExecuteCommands sh cmds dir =
        ((takeThrough (cmdFails sh dir) cmds).map
          (fun c => (ExecuteCommand sh c dir).1), none)) ∧
    (ExecuteCommands shTrueFalse ["true", "false", "true"] ".").1.map
        (fun r => (r.command, r.status)) =
      [("true", "completed"), ("false", "failed")] := by
  constructor
  · intro sh cmds dir
    induction cmds with
    | nil => rfl
    | cons c rest ih =>
      have h2 : ExecuteCommand sh c dir = ((ExecuteCommand sh c dir).1, none) := rfl
      simp only [ExecuteCommands, takeThrough]
      rw [h2]
      cases hf : cmdFails sh dir c with
      | true =>
        have hb : ((ExecuteCommand sh c dir).1.status == "failed") = true := hf
        simp [hb]
      | false =>
        have hb : ((ExecuteCommand sh c dir).1.status == "failed") = false := hf
        simp [hb, ih]
  · decide

/-- Claim C8.  Update of a path whose target does not exist fails with a
"file does not exist" error and leaves the filesystem unchanged (never an
implicit create); the File Agent surfaces it as `TaskResult{success:false}`
carrying that error message. -/
theorem C8_update_never_creates :
    (∀ (fs : FS) (path content : String), FileExists fs path = false →
      UpdateFile fs path content = (fs, some ("file does not exist: " ++ path))) ∧
    (∀ (fs : FS) (task : Task) (path content wdir : String),
      lookupAL task.data "operation" = some "update" →
      lookupAL task.data "path" = some path →
      lookupAL task.data "content" = some content →
      lookupAL task.data "workspace_dir" = some wdir →
      FileExists fs (joinPath wdir path) = false →
      FileAgentExecute fs task =
        (Except.ok { success := false, data := [],
                     error := "file does not exist: " ++ joinPath wdir path }, fs)) := by
  constructor
  · intro fs path content h
    simp [UpdateFile, h]
  · intro fs task path content wdir hop hpath hcontent hw hex
    simp [FileAgentExecute, handleUpdateFile, hop, hpath, hcontent, hw, UpdateFile, hex]

/-- Claim C8, witness: the theorem evaluated on an empty filesystem and a
concrete update task. -/
theorem C8_update_never_creates_witness :
    UpdateFile [] "ws/a.txt" "new" = ([], some "file does not exist: ws/a.txt") ∧
    FileAgentExecute [] taskUpd =
      (Except.ok { success := false, data := [],
                   error := "file does not exist: ws/a.txt" }, []) := by
  constructor
  · exact C8_update_never_creates.1 [] "ws/a.txt" "new" rfl
  · exact C8_update_never_creates.2 [] taskUpd "a.txt" "new" "ws" rfl rfl rfl rfl rfl

/-- Claim C9.  `ProcessUserRequest` builds and executes a Terminal task iff
the lower-cased request contains one of the fixed terminal-intent phrases
(`isTerminalIntent`), and otherwise builds and executes a Planning task
carrying the raw request under the `request` key; every agent invocation it
performs is of the built task's own kind; in particular
"please open terminal and list files" is terminal intent while
"help me understand this module" is not. -/
theorem C9_route_by_intent (s : System) (nid request dir : String) :
    (isTerminalIntent request = true →
      (ProcessUserRequest s nid request dir).built = terminalIntentTask nid request dir) ∧
    (isTerminalIntent request = false →
      (ProcessUserRequest s nid request dir).built = planningRequestTask nid request dir) ∧
    ((ProcessUserRequest s nid request dir).built.type = AgentType.terminal ↔
      isTerminalIntent request = true) ∧
    ((ProcessUserRequest s nid request dir).calls =
      (ExecuteTask s (ProcessUserRequest s nid request dir).built).calls) ∧
    (∀ p ∈ (ProcessUserRequest s nid request dir).calls,
      p.2 = (ProcessUserRequest s nid request dir).built.type) ∧
    (terminalIntentTask nid request dir).data =
      [("instruction", request), ("workspace_dir", dir)] ∧
    (planningRequestTask nid request dir).data =
      [("request", request), ("workspace_dir", dir)] ∧
    isTerminalIntent "please open terminal and list files" = true ∧
    isTerminalIntent "help me understand this module" = false := by
  cases h : isTerminalIntent request with
  | true =>
    obtain ⟨hb, hc⟩ := ProcessUserRequest_terminal_case s nid request dir h
    refine ⟨fun _ => hb, fun hf => absurd hf (by simp),
      ?_, ?_, ?_, rfl, rfl, by decide, by decide⟩
    · rw [hb]; simp [terminalIntentTask]
    · rw [hb, hc]
    · intro p hp
      rw [hc] at hp
      rw [hb]
      rcases ExecuteTask_calls_cases s (terminalIntentTask nid request dir) with hcs | hcs <;>
        rw [hcs] at hp
      · cases hp
      · rw [List.mem_singleton] at hp
        rw [hp]
  | false =>
    obtain ⟨hb, hc⟩ := ProcessUserRequest_planning_case s nid request dir h
    refine ⟨fun ht => absurd ht (by simp), fun _ => hb,
      ?_, ?_, ?_, rfl, rfl, by decide, by decide⟩
    · rw [hb]; simp [planningRequestTask]
    · rw [hb, hc]
    · intro p hp
      rw [hc] at hp
      rw [hb]
      rcases ExecuteTask_calls_cases s (planningRequestTask nid request dir) with hcs | hcs <;>
        rw [hcs] at hp
      · cases hp
      · rw [List.mem_singleton] at hp
        rw [hp]

/-- Claim C9, witness: the theorem evaluated on the two example requests
against a system with the Terminal and Planning agents registered. -/
theorem C9_route_by_intent_witness :
    (ProcessUserRequest sysBoth "n1" "please open terminal and list files" ".").built.type =
      AgentType.terminal ∧
    (ProcessUserRequest sysBoth "n1" "help me understand this module" ".").built.type =
      AgentType.planning := by
  constructor
  · exact (C9_route_by_intent sysBoth "n1" "please open terminal and list files" ".").2.2.1.mpr
      (by decide)
  · have h := (C9_route_by_intent sysBoth "n1" "help me understand this module" ".").2.1
      (by decide)
    rw [h]
    rfl

/-- Claim C10.  `HandleCommand` maps exactly the verbs `/fix`, `/run`,
`/explain`, `/create-project` to `ExecuteTask` of a Debug, Terminal,
Planning and Planning task whose payload key `error_output` (the spec's
`errorOutput`), `instruction`, `target`, `description` respectively is
populated from `args`; every other verb returns the hard failure
"unknown command: <verb>" without building or executing any task. -/
theorem C10_dispatch_verbs (s : System) (nid args dir : String) :
    ((HandleCommand s nid "/fix" args dir).built = some (fixTask nid args dir) ∧
     (fixTask nid args dir).type = AgentType.debug ∧
     (fixTask nid args dir).data = [("error_output", args), ("workspace_dir", dir)] ∧
     (HandleCommand s nid "/fix" args dir).res =
       (ExecuteTask s (fixTask nid args dir)).res.toPair ∧
     (HandleCommand s nid "/fix" args dir).calls =
       (ExecuteTask s (fixTask nid args dir)).calls) ∧
    ((HandleCommand s nid "/run" args dir).built = some (runTask nid args dir) ∧
     (runTask nid args dir).type = AgentType.terminal ∧
     (runTask nid args dir).data = [("instruction", args), ("workspace_dir", dir)] ∧
     (HandleCommand s nid "/run" args dir).res =
       (ExecuteTask s (runTask nid args dir)).res.toPair ∧
     (HandleCommand s nid "/run" args dir).calls =
       (ExecuteTask s (runTask nid args dir)).calls) ∧
    ((HandleCommand s nid "/explain" args dir).built = some (explainTask nid args dir) ∧
     (explainTask nid args dir).type = AgentType.planning ∧
     (explainTask nid args dir).data = [("target", args), ("workspace_dir", dir)] ∧
     (HandleCommand s nid "/explain" args dir).res =
       (ExecuteTask s (explainTask nid args dir)).res.toPair ∧
     (HandleCommand s nid "/explain" args dir).calls =
       (ExecuteTask s (explainTask nid args dir)).calls) ∧
    ((HandleCommand s nid "/create-project" args dir).built =
       some (createProjectTask nid args dir) ∧
     (createProjectTask nid args dir).type = AgentType.planning ∧
     (createProjectTask nid args dir).data =
       [("description", args), ("workspace_dir", dir)] ∧
     (HandleCommand s nid "/create-project" args dir).res =
       (ExecuteTask s (createProjectTask nid args dir)).res.toPair ∧
     (HandleCommand s nid "/create-project" args dir).calls =
       (ExecuteTask s (createProjectTask nid args dir)).calls) ∧
    (∀ v, v ≠ "/fix" → v ≠ "/run" → v ≠ "/explain" → v ≠ "/create-project" →
      (HandleCommand s nid v args dir).built = none ∧
      (HandleCommand s nid v args dir).res = (none, some ("unknown command: " ++ v)) ∧
      (HandleCommand s nid v args dir).calls = []) := by
  refine ⟨⟨rfl, rfl, rfl, rfl, rfl⟩, ⟨rfl, rfl, rfl, rfl, rfl⟩,
    ⟨rfl, rfl, rfl, rfl, rfl⟩, ⟨rfl, rfl, rfl, rfl, rfl⟩, ?_⟩
  intro v h1 h2 h3 h4
  refine ⟨?_, ?_, ?_⟩ <;> simp [HandleCommand, h1, h2, h3, h4]

/-- Claim C10, witness: the unknown-verb clause evaluated on
`/frobnicate`. -/
theorem C10_dispatch_verbs_witness :
    (HandleCommand sysBoth "n1" "/frobnicate" "" ".").built = none ∧
    (HandleCommand sysBoth "n1" "/frobnicate" "" ".").res =
      (none, some "unknown command: /frobnicate") ∧
    (HandleCommand sysBoth "n1" "/frobnicate" "" ".").calls = [] :=
  (C10_dispatch_verbs sysBoth "n1" "" ".").2.2.2.2 "/frobnicate"
    (by decide) (by decide) (by decide) (by decide)

end Spilot
